import Mathlib

/-!
Shallow embedding of `openvidu-node-client/src/Session.ts` (class `Session`,
methods `getSessionId` and `generateToken`).

The TypeScript code runs on a single-threaded event loop.  Each call to one of
the two methods synchronously runs the body of a `new Promise(executor)`:
it may resolve early, serializes a JSON request body, issues an HTTPS POST and
registers a completion callback.  The callback later fires with either a
transport error or a response (status code plus accumulated body string) and
settles the promise.  We embed one call as a pure function from the session
state and the transport's answer to a `CallResult` recording

  * the list of HTTP requests the call issued,
  * whether `JSON.parse` was applied to the response body,
  * the settled outcome of the promise (first `resolve`/`reject` wins), and
  * the session state after the callback has run.

JavaScript platform primitives are modelled explicitly: `JSON.stringify` of a
flat object literal with string-or-undefined values (`jsonStringifyFlat`, which
skips `undefined` fields), `JSON.parse` restricted to flat objects with string
values (`jsonParse` — a subset of the platform parser sufficient for the bodies
this client consumes; where it succeeds it agrees with `JSON.parse`),
JavaScript truthiness of a possibly-undefined string (`jsTruthy`), and
`Buffer.byteLength`, which counts UTF-8 bytes (`String.utf8ByteSize`).
-/

set_option autoImplicit false

namespace OpenVidu

/-! ### JSON serialization (model of `JSON.stringify` on flat string objects) -/

/-- Lower-case hex digit, as produced by `JSON.stringify` control escapes. -/
def hexDigit (n : Nat) : Char :=
  if n < 10 then Char.ofNat (48 + n) else Char.ofNat (87 + n % 16)

/-- Escape one character the way `JSON.stringify` does inside a string literal. -/
def escapeJsonChar (c : Char) : String :=
  if c = '"' then "\\\""
  else if c = '\\' then "\\\\"
  else if c = '\n' then "\\n"
  else if c = '\r' then "\\r"
  else if c = '\t' then "\\t"
  else if c = '\x08' then "\\b"
  else if c = '\x0c' then "\\f"
  else if c.toNat < 32 then
    String.mk ['\\', 'u', '0', '0', hexDigit (c.toNat / 16), hexDigit (c.toNat % 16)]
  else String.singleton c

/-- Model of `JSON.stringify` applied to a single string value. -/
def jsonQuote (s : String) : String :=
  "\"" ++ String.join (s.data.map escapeJsonChar) ++ "\""

/-- Model of `JSON.stringify` applied to a flat object literal whose values are
strings or `undefined` (`none`).  As in JavaScript, fields holding `undefined`
are omitted from the output. -/
def jsonStringifyFlat (fields : List (String × Option String)) : String :=
  "\x7b" ++
    String.intercalate ","
      (fields.filterMap fun p =>
        p.2.map fun v => jsonQuote p.1 ++ ":" ++ jsonQuote v) ++
  "\x7d"

/-! ### JSON parsing (subset model of `JSON.parse`) -/

/-- Drop leading JSON whitespace. -/
def skipWs : List Char → List Char
  | c :: cs => if c = ' ' ∨ c = '\n' ∨ c = '\t' ∨ c = '\r' then skipWs cs else c :: cs
  | [] => []

/-- Parse the remainder of a JSON string literal (the opening quote already
consumed), handling the single-character escapes.  `fuel` bounds recursion. -/
def parseJString (fuel : Nat) (cs : List Char) (acc : String) :
    Option (String × List Char) :=
  match fuel, cs with
  | 0, _ => none
  | _, [] => none
  | f + 1, c :: rest =>
    if c = '"' then some (acc, rest)
    else if c = '\\' then
      match rest with
      | [] => none
      | e :: rest2 =>
        let ec : Option Char :=
          if e = '"' then some '"'
          else if e = '\\' then some '\\'
          else if e = '/' then some '/'
          else if e = 'n' then some '\n'
          else if e = 't' then some '\t'
          else if e = 'r' then some '\r'
          else if e = 'b' then some '\x08'
          else if e = 'f' then some '\x0c'
          else none
        match ec with
        | some ch => parseJString f rest2 (acc.push ch)
        | none => none
    else if c.toNat < 32 then none
    else parseJString f rest (acc.push c)

/-- Parse the fields of a JSON object after its opening brace, assuming at
least one field and string-valued fields only. -/
def parseFieldsAux (fuel : Nat) (cs : List Char) (acc : List (String × String)) :
    Option (List (String × String) × List Char) :=
  match fuel with
  | 0 => none
  | f + 1 =>
    match skipWs cs with
    | [] => none
    | c :: rest =>
      if c = '"' then
        match parseJString (rest.length + 1) rest "" with
        | none => none
        | some (k, rest2) =>
          match skipWs rest2 with
          | [] => none
          | c2 :: rest3 =>
            if c2 = ':' then
              match skipWs rest3 with
              | [] => none
              | c3 :: rest4 =>
                if c3 = '"' then
                  match parseJString (rest4.length + 1) rest4 "" with
                  | none => none
                  | some (v, rest5) =>
                    match skipWs rest5 with
                    | [] => none
                    | c4 :: rest6 =>
                      if c4 = ',' then parseFieldsAux f rest6 (acc ++ [(k, v)])
                      else if c4 = '\x7d' then some (acc ++ [(k, v)], rest6)
                      else none
                else none
            else none
      else none

/-- Subset model of `JSON.parse`: accepts a flat object with string values and
returns its field list in textual order.  Rejects everything else (on bodies
this model rejects the platform parser may still succeed; no claim below
depends on such bodies). -/
def jsonParse (s : String) : Option (List (String × String)) :=
  match skipWs s.data with
  | [] => none
  | c :: cs =>
    if c = '\x7b' then
      match skipWs cs with
      | [] => none
      | c2 :: cs2 =>
        if c2 = '\x7d' then
          if (skipWs cs2).isEmpty then some [] else none
        else
          match parseFieldsAux (cs.length + 1) cs [] with
          | some (fields, rest) => if (skipWs rest).isEmpty then some fields else none
          | none => none
    else none

/-- JavaScript property access on a parsed object: the last binding of a
duplicated key wins, an absent key reads as `undefined` (`none`). -/
def getField (fields : List (String × String)) (k : String) : Option String :=
  (fields.reverse.find? fun p => p.1 = k).map fun p => p.2

/-! ### JavaScript helpers -/

/-- Truthiness of a possibly-undefined JavaScript string: `undefined` and the
empty string are falsy, every other string is truthy. -/
def jsTruthy (v : Option String) : Bool :=
  match v with
  | none => false
  | some s => !s.isEmpty

/-- Model of the pattern `!!x ? x : dflt` on a possibly-undefined string. -/
def jsOr (v : Option String) (dflt : String) : String :=
  match v with
  | none => dflt
  | some s => if s.isEmpty then dflt else s

/-! ### Enumerations

The enum source files (`MediaMode.ts`, `RecordingMode.ts`, `RecordingLayout.ts`,
`OpenViduRole.ts`) are referenced by `Session.ts` but are not part of the
sources under study, so their string values are taken from the specification. -/

/-- Modelled from the spec: `MediaMode.ROUTED`, the default media mode, whose
enum definition file is not among the sources. -/
def MediaMode.ROUTED : String := "ROUTED"

/-- Modelled from the spec: `RecordingMode.MANUAL`, the default recording mode,
whose enum definition file is not among the sources. -/
def RecordingMode.MANUAL : String := "MANUAL"

/-- Modelled from the spec: `RecordingLayout.BEST_FIT`, the default recording
layout, whose enum definition file is not among the sources. -/
def RecordingLayout.BEST_FIT : String := "BEST_FIT"

/-- Modelled from the spec: `OpenViduRole.PUBLISHER`, the default token role,
whose enum definition file is not among the sources. -/
def OpenViduRole.PUBLISHER : String := "PUBLISHER"

/-! ### Data model -/

/-- `SessionProperties`: all fields optional (`undefined` when absent). -/
structure SessionProperties where
  mediaMode : Option String := none
  recordingMode : Option String := none
  defaultRecordingLayout : Option String := none
  defaultCustomLayout : Option String := none
  deriving Repr, DecidableEq

/-- `TokenOptions`: per-token record with optional `role` and `data`. -/
structure TokenOptions where
  role : Option String := none
  data : Option String := none
  deriving Repr, DecidableEq

/-- The `Session` handle: connection parameters, properties, and the mutable
`sessionId` cell (`none` while still undefined). -/
structure Session where
  hostname : String
  port : Nat
  basicAuth : String
  properties : SessionProperties
  sessionId : Option String
  deriving Repr, DecidableEq

/-- The constructor `new Session(hostname, port, basicAuth, properties?)`:
an omitted or undefined `properties` argument is replaced by `{}`;
`sessionId` starts undefined. -/
def Session.create (hostname : String) (port : Nat) (basicAuth : String)
    (properties : Option SessionProperties) : Session :=
  { hostname := hostname
    port := port
    basicAuth := basicAuth
    properties := properties.getD {}
    sessionId := none }

/-- One HTTPS request as assembled by either method: the `options` object
passed to `https.request` plus the body written via `req.write`. -/
structure HttpRequest where
  hostname : String
  port : Nat
  path : String
  method : String
  authorization : String
  contentType : String
  contentLength : Nat
  body : String
  deriving Repr, DecidableEq

/-- What the transport layer reports back for one issued request: either a
response (status code and fully accumulated body) or a transport-level error
(`req.on('error')`). -/
inductive HttpResult where
  | response (statusCode : Nat) (body : String)
  | transportError (e : String)
  deriving Repr, DecidableEq

/-- How a call's promise ends up.  `resolved` carries a possibly-undefined
string (JavaScript `resolve(parsed.id)` may pass `undefined`);
`rejectedStatus` is `reject(new Error(res.statusCode))`; `rejectedTransport`
is `reject(e)`; `rejectedTypeError` is the promise rejection produced when the
executor throws a `TypeError` (property access on `undefined`); `parseError`
marks an uncaught `JSON.parse` exception inside the `end` callback, after
which the promise never settles from that callback. -/
inductive Outcome where
  | resolved (v : Option String)
  | rejectedStatus (code : Nat)
  | rejectedTransport (e : String)
  | rejectedTypeError
  | parseError
  deriving Repr, DecidableEq

/-- Observable result of one method call: requests issued, whether the body
was fed to `JSON.parse`, the settled outcome, and the session afterwards. -/
structure CallResult where
  requests : List HttpRequest
  parseAttempted : Bool
  outcome : Outcome
  state : Session
  deriving Repr, DecidableEq

/-! ### The two operations -/

/-- The request body built by `getSessionId`: each property field is taken
from `this.properties` when truthy, otherwise replaced by its default. -/
def sessionRequestBody (p : SessionProperties) : String :=
  jsonStringifyFlat
    [("mediaMode", some (jsOr p.mediaMode MediaMode.ROUTED)),
     ("recordingMode", some (jsOr p.recordingMode RecordingMode.MANUAL)),
     ("defaultRecordingLayout", some (jsOr p.defaultRecordingLayout RecordingLayout.BEST_FIT)),
     ("defaultCustomLayout", some (jsOr p.defaultCustomLayout ""))]

/-- The `options` object and body of the POST to `/api/sessions`.
`Content-Length` is `Buffer.byteLength(requestBody)`: the UTF-8 byte count. -/
def sessionRequest (s : Session) : HttpRequest :=
  let requestBody := sessionRequestBody s.properties
  { hostname := s.hostname
    port := s.port
    path := "/api/sessions"
    method := "POST"
    authorization := s.basicAuth
    contentType := "application/json"
    contentLength := requestBody.utf8ByteSize
    body := requestBody }

/-- The shared shape of both response callbacks (`res.on('end')` plus
`req.on('error')`): given the current value of the `sessionId` cell and the
transport's answer, return the cell's new value, the settle attempt this
callback makes, and whether `JSON.parse` ran.  Only `getSessionId` writes the
cell; `generateToken` uses this with the write ignored. -/
def sessionCallback (cache : Option String) (env : HttpResult) :
    Option String × Outcome × Bool :=
  match env with
  | .transportError e => (cache, .rejectedTransport e, false)
  | .response code body =>
    if code = 200 then
      match jsonParse body with
      | some fields =>
        let id := getField fields "id"
        (id, .resolved id, true)
      | none => (cache, .parseError, true)
    else (cache, .rejectedStatus code, false)

/-- `Session.getSessionId()`, one call.  The executor first runs
`if (!!this.sessionId) resolve(this.sessionId);` — with no `return`, so the
request body is built and the POST to `/api/sessions` is issued in every case.
The completion callback then runs: on a 200 it parses the body, writes
`parsed.id` into `this.sessionId` and attempts `resolve(parsed.id)`; on any
other status it attempts `reject(new Error(res.statusCode))` without touching
the body; on a transport error it attempts `reject(e)`.  The promise keeps the
first settlement, so a fast-path `resolve` wins over the callback's attempt. -/
def getSessionId (s : Session) (env : HttpResult) : CallResult :=
  let req := sessionRequest s
  let fastResolved := jsTruthy s.sessionId
  let step := sessionCallback s.sessionId env
  { requests := [req]
    parseAttempted := step.2.2
    outcome := if fastResolved then .resolved s.sessionId else step.2.1
    state := { s with sessionId := step.1 } }

/-- The request body built by `generateToken` from a present options object:
`session` is `this.sessionId` as-is (omitted by `JSON.stringify` when
undefined), `role` and `data` default when falsy. -/
def tokenRequestBody (sessionId : Option String) (opts : TokenOptions) : String :=
  jsonStringifyFlat
    [("session", sessionId),
     ("role", some (jsOr opts.role OpenViduRole.PUBLISHER)),
     ("data", some (jsOr opts.data ""))]

/-- The `options` object and body of the POST to `/api/tokens`. -/
def tokenRequest (s : Session) (opts : TokenOptions) : HttpRequest :=
  let requestBody := tokenRequestBody s.sessionId opts
  { hostname := s.hostname
    port := s.port
    path := "/api/tokens"
    method := "POST"
    authorization := s.basicAuth
    contentType := "application/json"
    contentLength := requestBody.utf8ByteSize
    body := requestBody }

/-- `Session.generateToken(tokenOptions?)`, one call.  When the argument is
omitted (`none`), the executor's very first expression `tokenOptions.role`
throws a `TypeError` (property access on `undefined`): the promise rejects
with that error and no request is issued.  Otherwise the body is serialized
— with no validation of `this.sessionId` — and the POST to `/api/tokens` is
issued; the callback resolves `parsed.id` on a 200, rejects the status code
otherwise, and never writes `this.sessionId`. -/
def generateToken (s : Session) (tokenOptions : Option TokenOptions)
    (env : HttpResult) : CallResult :=
  match tokenOptions with
  | none =>
    { requests := [], parseAttempted := false, outcome := .rejectedTypeError, state := s }
  | some opts =>
    let req := tokenRequest s opts
    let step := sessionCallback s.sessionId env
    { requests := [req]
      parseAttempted := step.2.2
      outcome := step.2.1
      state := s }

/-- Two sequential `getSessionId` calls on the same handle, the first allowed
to complete (its callback has run) before the second starts. -/
def twoSequentialGetSessionId (s : Session) (env1 env2 : HttpResult) :
    CallResult × CallResult :=
  let r1 := getSessionId s env1
  (r1, getSessionId r1.state env2)

/-- Result of two concurrent `getSessionId` calls on one handle. -/
structure ConcurrentResult where
  requests : List HttpRequest
  firstCaller : Outcome
  secondCaller : Outcome
  finalSessionId : Option String
  deriving Repr, DecidableEq

/-- Two concurrent `getSessionId` calls: on the single-threaded event loop
both executors run to completion (reading the same initial `sessionId` cell
and each issuing its own request) before either completion callback fires;
then the callback for `env1` runs, then the callback for `env2`, each reading
and writing the shared `sessionId` cell in turn.  Each caller's promise keeps
its own first settlement. -/
def twoConcurrentGetSessionId (s : Session) (env1 env2 : HttpResult) :
    ConcurrentResult :=
  let fast := jsTruthy s.sessionId
  let step1 := sessionCallback s.sessionId env1
  let step2 := sessionCallback step1.1 env2
  { requests := [sessionRequest s, sessionRequest s]
    firstCaller := if fast then .resolved s.sessionId else step1.2.1
    secondCaller := if fast then .resolved s.sessionId else step2.2.1
    finalSessionId := step2.1 }

/-- A failing completion: the promise rejected with a status code or a
transport error. -/
def Outcome.isFailure : Outcome → Bool
  | .rejectedStatus _ => true
  | .rejectedTransport _ => true
  | .rejectedTypeError => true
  | _ => false

/-- The session-creation body produced from fully defaulted properties. -/
def defaultSessionBody : String :=
  "\x7b\"mediaMode\":\"ROUTED\",\"recordingMode\":\"MANUAL\",\"defaultRecordingLayout\":\"BEST_FIT\",\"defaultCustomLayout\":\"\"\x7d"

/-- The pattern `!!x ? x : d` applied to an explicitly supplied default is the
default itself. -/
theorem jsOr_some_self (d : String) : jsOr (some d) d = d := by
  simp [jsOr]

/-! ### Claims -/

/-- C1: evidence against the claim (code bug).  With the `sessionId` already
cached after a completed first call, a second sequential `getSessionId` call
still issues a POST to `/api/sessions` — `resolve(this.sessionId)` is not
followed by `return` — so two sequential calls issue two network requests in
total, not one, even though both calls do resolve to the same identifier. -/
theorem getSessionId_cached_still_issues_request :
    (twoSequentialGetSessionId (Session.create "h" 4443 "B" none)
      (.response 200 "\x7b\"id\":\"A\"\x7d")
      (.response 200 "\x7b\"id\":\"A\"\x7d")).1.outcome = .resolved (some "A") ∧
    (twoSequentialGetSessionId (Session.create "h" 4443 "B" none)
      (.response 200 "\x7b\"id\":\"A\"\x7d")
      (.response 200 "\x7b\"id\":\"A\"\x7d")).2.outcome = .resolved (some "A") ∧
    (twoSequentialGetSessionId (Session.create "h" 4443 "B" none)
      (.response 200 "\x7b\"id\":\"A\"\x7d")
      (.response 200 "\x7b\"id\":\"A\"\x7d")).2.requests.length = 1 ∧
    (twoSequentialGetSessionId (Session.create "h" 4443 "B" none)
      (.response 200 "\x7b\"id\":\"A\"\x7d")
      (.response 200 "\x7b\"id\":\"A\"\x7d")).1.requests.length +
      (twoSequentialGetSessionId (Session.create "h" 4443 "B" none)
        (.response 200 "\x7b\"id\":\"A\"\x7d")
        (.response 200 "\x7b\"id\":\"A\"\x7d")).2.requests.length = 2 :=
  ⟨rfl, rfl, rfl, rfl⟩

/-- C2: calling `generateToken` with no options argument at all never applies
defaults: the executor throws a `TypeError` reading `.role` on `undefined`,
the promise rejects with that dereference-style error, no request is issued
and the state is untouched. -/
theorem generateToken_without_options_rejects_typeError
    (s : Session) (env : HttpResult) :
    generateToken s none env =
      { requests := [], parseAttempted := false,
        outcome := .rejectedTypeError, state := s } :=
  rfl

/-- C3: counterexample to the claim as stated.  A handle whose `sessionId` is
already cached still issues a request (the C1 bug); when that request comes
back `400` the operation does NOT complete with a failure carrying `400` — the
promise already resolved with the cached value — though no body parsing is
attempted. -/
theorem nonOk_status_not_failure_when_cached :
    let s : Session :=
      { hostname := "h", port := 4443, basicAuth := "B",
        properties := {}, sessionId := some "sid" }
    let r := getSessionId s (.response 400 "irrelevant")
    r.outcome = .resolved (some "sid") ∧
    r.outcome ≠ .rejectedStatus 400 ∧
    r.outcome.isFailure = false ∧
    r.parseAttempted = false := by
  exact ⟨rfl, by decide, rfl, rfl⟩

/-- C3 (amended): for every non-200 response, `generateToken` (called with an
options object) rejects with exactly that numeric status code, and
`getSessionId` does so whenever its cached fast-path did not fire; on the
non-200 path neither operation ever attempts to parse the response body. -/
theorem nonOk_status_rejects_with_code
    (s : Session) (opts : TokenOptions) (code : Nat) (body : String)
    (hc : code ≠ 200) :
    (jsTruthy s.sessionId = false →
      (getSessionId s (.response code body)).outcome = .rejectedStatus code) ∧
    (getSessionId s (.response code body)).parseAttempted = false ∧
    (generateToken s (some opts) (.response code body)).outcome = .rejectedStatus code ∧
    (generateToken s (some opts) (.response code body)).parseAttempted = false := by
  refine ⟨fun hfast => ?_, ?_, ?_, ?_⟩
  · simp [getSessionId, sessionCallback, hc, hfast]
  · simp [getSessionId, sessionCallback, hc]
  · simp [generateToken, sessionCallback, hc]
  · simp [generateToken, sessionCallback, hc]

/-- C3 witness: the amended statement applied to a fresh handle receiving a
simulated 400 from either endpoint, with every hypothesis discharged. -/
theorem nonOk_status_rejects_with_code_witness :
    (getSessionId (Session.create "h" 4443 "B" none)
        (.response 400 "body")).outcome = .rejectedStatus 400 ∧
    (getSessionId (Session.create "h" 4443 "B" none)
        (.response 400 "body")).parseAttempted = false ∧
    (generateToken (Session.create "h" 4443 "B" none) (some {})
        (.response 400 "body")).outcome = .rejectedStatus 400 ∧
    (generateToken (Session.create "h" 4443 "B" none) (some {})
        (.response 400 "body")).parseAttempted = false :=
  ⟨(nonOk_status_rejects_with_code (Session.create "h" 4443 "B" none) {} 400 "body"
      (by decide)).1 rfl,
   (nonOk_status_rejects_with_code (Session.create "h" 4443 "B" none) {} 400 "body"
      (by decide)).2⟩

/-- C4: counterexample to the claim as stated.  When the `sessionId` is
already cached as `"X"` and the (bug-issued) request receives a 200 whose body
carries id `"Y"`, the call stores `"Y"` into the cell but does not complete
with `"Y"`: the promise already resolved with the stale cached `"X"`. -/
theorem ok_response_resolves_stale_cached_value :
    let s : Session :=
      { hostname := "h", port := 4443, basicAuth := "B",
        properties := {}, sessionId := some "X" }
    let r := getSessionId s (.response 200 "\x7b\"id\":\"Y\"\x7d")
    r.outcome = .resolved (some "X") ∧
    r.state.sessionId = some "Y" ∧
    r.outcome ≠ .resolved (some "Y") := by
  exact ⟨rfl, rfl, by decide⟩

/-- C4 (amended): for every `getSessionId` call receiving a 200 response whose
body is a JSON object carrying an `id` field, the body is parsed, the `id`
value is stored into the handle's `sessionId` cell, and — provided the
fast-path had not already resolved the cached value — the call completes
successfully with that same identifier. -/
theorem getSessionId_ok_parses_stores_resolves
    (s : Session) (body : String) (fields : List (String × String)) (v : String)
    (hp : jsonParse body = some fields) (hid : getField fields "id" = some v) :
    (getSessionId s (.response 200 body)).parseAttempted = true ∧
    (getSessionId s (.response 200 body)).state.sessionId = some v ∧
    (jsTruthy s.sessionId = false →
      (getSessionId s (.response 200 body)).outcome = .resolved (some v)) := by
  refine ⟨?_, ?_, fun hfast => ?_⟩
  · simp [getSessionId, sessionCallback, hp]
  · simp [getSessionId, sessionCallback, hp, hid]
  · simp [getSessionId, sessionCallback, hp, hid, hfast]

/-- C4 witness: the amended statement applied to a fresh handle receiving
`200` with body `\x7b"id":"abc"\x7d`, with every hypothesis discharged. -/
theorem getSessionId_ok_parses_stores_resolves_witness :
    (getSessionId (Session.create "h" 4443 "B" none)
        (.response 200 "\x7b\"id\":\"abc\"\x7d")).parseAttempted = true ∧
    (getSessionId (Session.create "h" 4443 "B" none)
        (.response 200 "\x7b\"id\":\"abc\"\x7d")).state.sessionId = some "abc" ∧
    (getSessionId (Session.create "h" 4443 "B" none)
        (.response 200 "\x7b\"id\":\"abc\"\x7d")).outcome = .resolved (some "abc") :=
  ⟨(getSessionId_ok_parses_stores_resolves (Session.create "h" 4443 "B" none)
      "\x7b\"id\":\"abc\"\x7d" [("id", "abc")] "abc" rfl rfl).1,
   (getSessionId_ok_parses_stores_resolves (Session.create "h" 4443 "B" none)
      "\x7b\"id\":\"abc\"\x7d" [("id", "abc")] "abc" rfl rfl).2.1,
   (getSessionId_ok_parses_stores_resolves (Session.create "h" 4443 "B" none)
      "\x7b\"id\":\"abc\"\x7d" [("id", "abc")] "abc" rfl rfl).2.2 rfl⟩

/-- C5: a handle constructed with omitted properties sends exactly the body
`\x7b"mediaMode":"ROUTED","recordingMode":"MANUAL","defaultRecordingLayout":"BEST_FIT","defaultCustomLayout":""\x7d`
when provisioning; and in general each unset property field is serialized
exactly as if it had been set to its documented default. -/
theorem default_properties_request_body :
    (∀ (h : String) (p : Nat) (a : String) (env : HttpResult),
      ((getSessionId (Session.create h p a none) env).requests.map
        fun r => r.body) = [defaultSessionBody]) ∧
    (∀ q : SessionProperties,
      (q.mediaMode = none →
        sessionRequestBody q =
          sessionRequestBody { q with mediaMode := some MediaMode.ROUTED }) ∧
      (q.recordingMode = none →
        sessionRequestBody q =
          sessionRequestBody { q with recordingMode := some RecordingMode.MANUAL }) ∧
      (q.defaultRecordingLayout = none →
        sessionRequestBody q =
          sessionRequestBody { q with defaultRecordingLayout := some RecordingLayout.BEST_FIT }) ∧
      (q.defaultCustomLayout = none →
        sessionRequestBody q =
          sessionRequestBody { q with defaultCustomLayout := some "" })) := by
  refine ⟨fun h p a env => rfl, fun q => ⟨?_, ?_, ?_, ?_⟩⟩ <;>
    intro hq <;>
    simp [sessionRequestBody, hq, jsOr]

/-- C5 witness: the default body equality at a concrete handle, and the
mediaMode default-substitution equation at fully empty properties. -/
theorem default_properties_request_body_witness :
    ((getSessionId (Session.create "h" 4443 "B" none)
        (.response 200 "")).requests.map fun r => r.body) = [defaultSessionBody] ∧
    sessionRequestBody {} =
      sessionRequestBody { mediaMode := some MediaMode.ROUTED } :=
  ⟨default_properties_request_body.1 "h" 4443 "B" (.response 200 ""),
   (default_properties_request_body.2 {}).1 rfl⟩

/-- C6: a `generateToken` call with the empty options object serializes the
body with the handle's current `sessionId` as `session`, role defaulted to
`PUBLISHER` and data defaulted to the empty string; concretely, for
`sessionId = "sid1"` the body is
`\x7b"session":"sid1","role":"PUBLISHER","data":""\x7d`. -/
theorem token_body_with_empty_options :
    (∀ (s : Session) (sid : String) (env : HttpResult),
      s.sessionId = some sid →
      ((generateToken s (some {}) env).requests.map fun r => r.body) =
        [jsonStringifyFlat
          [("session", some sid), ("role", some "PUBLISHER"), ("data", some "")]]) ∧
    jsonStringifyFlat
        [("session", some "sid1"), ("role", some "PUBLISHER"), ("data", some "")] =
      "\x7b\"session\":\"sid1\",\"role\":\"PUBLISHER\",\"data\":\"\"\x7d" := by
  refine ⟨fun s sid env hs => ?_, rfl⟩
  simp [generateToken, tokenRequest, tokenRequestBody, hs, jsOr,
    OpenViduRole.PUBLISHER]

/-- C6 witness: the body equation at a handle whose `sessionId` is `"sid1"`. -/
theorem token_body_with_empty_options_witness :
    ((generateToken
        { hostname := "h", port := 4443, basicAuth := "B",
          properties := {}, sessionId := some "sid1" }
        (some {}) (.response 200 "")).requests.map fun r => r.body) =
      [jsonStringifyFlat
        [("session", some "sid1"), ("role", some "PUBLISHER"), ("data", some "")]] :=
  token_body_with_empty_options.1
    { hostname := "h", port := 4443, basicAuth := "B",
      properties := {}, sessionId := some "sid1" }
    "sid1" (.response 200 "") rfl

/-- C7: every request either operation issues carries a `Content-Length`
header equal to the UTF-8 byte length of its serialized body; for a body with
multi-byte characters (`defaultCustomLayout` set to a non-ASCII string) the
byte length differs from the character count and the header carries the byte
length. -/
theorem contentLength_is_byte_length :
    (∀ (s : Session) (env : HttpResult),
      ((getSessionId s env).requests.all
        fun r => r.contentLength == r.body.utf8ByteSize) = true) ∧
    (∀ (s : Session) (opts : TokenOptions) (env : HttpResult),
      ((generateToken s (some opts) env).requests.all
        fun r => r.contentLength == r.body.utf8ByteSize) = true) ∧
    (let s : Session :=
      { hostname := "h", port := 4443, basicAuth := "B",
        properties := { defaultCustomLayout := some "日本語" }, sessionId := none }
     (sessionRequest s).contentLength = (sessionRequest s).body.utf8ByteSize ∧
     (sessionRequest s).body.utf8ByteSize = (sessionRequest s).body.length + 6 ∧
     (sessionRequest s).contentLength ≠ (sessionRequest s).body.length) := by
  refine ⟨fun s env => ?_, fun s opts env => ?_, rfl, by decide, by decide⟩ <;>
    simp [getSessionId, generateToken, sessionRequest, tokenRequest]

/-- C8: `generateToken` performs no local validation of `sessionId`: with the
cell unset it still issues exactly one request, whose body omits the `session`
field entirely (`JSON.stringify` drops the `undefined` value), and an unset
session can only surface as a server-side non-200 rejection carrying that
status code. -/
theorem generateToken_no_local_session_validation
    (s : Session) (opts : TokenOptions) (env : HttpResult)
    (hs : s.sessionId = none) :
    ((generateToken s (some opts) env).requests.map fun r => r.body) =
      [jsonStringifyFlat
        [("role", some (jsOr opts.role OpenViduRole.PUBLISHER)),
         ("data", some (jsOr opts.data ""))]] ∧
    (generateToken s (some opts) env).requests.length = 1 ∧
    (∀ (code : Nat) (body : String), code ≠ 200 →
      (generateToken s (some opts) (.response code body)).outcome =
        .rejectedStatus code) := by
  refine ⟨?_, rfl, fun code body hc => ?_⟩
  · simp [generateToken, tokenRequest, tokenRequestBody, hs, jsonStringifyFlat]
  · simp [generateToken, sessionCallback, hc]

/-- C8 witness: the statement at a fresh handle with empty options and a
simulated 400, instantiating the non-200 part at code 400. -/
theorem generateToken_no_local_session_validation_witness :
    ((generateToken (Session.create "h" 4443 "B" none) (some {})
        (.response 400 "x")).requests.map fun r => r.body) =
      [jsonStringifyFlat
        [("role", some (jsOr none OpenViduRole.PUBLISHER)),
         ("data", some (jsOr none ""))]] ∧
    (generateToken (Session.create "h" 4443 "B" none) (some {})
        (.response 400 "x")).requests.length = 1 ∧
    (generateToken (Session.create "h" 4443 "B" none) (some {})
        (.response 400 "x")).outcome = .rejectedStatus 400 :=
  ⟨(generateToken_no_local_session_validation
      (Session.create "h" 4443 "B" none) {} (.response 400 "x") rfl).1,
   (generateToken_no_local_session_validation
      (Session.create "h" 4443 "B" none) {} (.response 400 "x") rfl).2.1,
   (generateToken_no_local_session_validation
      (Session.create "h" 4443 "B" none) {} (.response 400 "x") rfl).2.2
     400 "x" (by decide)⟩

/-- C9: two concurrent `getSessionId` calls issued while `sessionId` is unset
are not deduplicated (two requests go out); with responses carrying ids "A"
and "B" and "B"'s response processed last, the final cached `sessionId` is
"B" (last-completed-wins), while each caller resolves to the id carried by
its own response. -/
theorem concurrent_getSessionId_race
    (s : Session) (hs : s.sessionId = none) :
    (twoConcurrentGetSessionId s
        (.response 200 "\x7b\"id\":\"A\"\x7d")
        (.response 200 "\x7b\"id\":\"B\"\x7d")).requests.length = 2 ∧
    (twoConcurrentGetSessionId s
        (.response 200 "\x7b\"id\":\"A\"\x7d")
        (.response 200 "\x7b\"id\":\"B\"\x7d")).firstCaller = .resolved (some "A") ∧
    (twoConcurrentGetSessionId s
        (.response 200 "\x7b\"id\":\"A\"\x7d")
        (.response 200 "\x7b\"id\":\"B\"\x7d")).secondCaller = .resolved (some "B") ∧
    (twoConcurrentGetSessionId s
        (.response 200 "\x7b\"id\":\"A\"\x7d")
        (.response 200 "\x7b\"id\":\"B\"\x7d")).finalSessionId = some "B" := by
  have hA : sessionCallback none (.response 200 "\x7b\"id\":\"A\"\x7d") =
      (some "A", .resolved (some "A"), true) := rfl
  have hB : sessionCallback (some "A") (.response 200 "\x7b\"id\":\"B\"\x7d") =
      (some "B", .resolved (some "B"), true) := rfl
  refine ⟨rfl, ?_, ?_, ?_⟩ <;>
    simp [twoConcurrentGetSessionId, hs, hA, hB, jsTruthy]

/-- C9 witness: the race statement at a freshly constructed handle. -/
theorem concurrent_getSessionId_race_witness :
    (twoConcurrentGetSessionId (Session.create "h" 4443 "B" none)
        (.response 200 "\x7b\"id\":\"A\"\x7d")
        (.response 200 "\x7b\"id\":\"B\"\x7d")).requests.length = 2 ∧
    (twoConcurrentGetSessionId (Session.create "h" 4443 "B" none)
        (.response 200 "\x7b\"id\":\"A\"\x7d")
        (.response 200 "\x7b\"id\":\"B\"\x7d")).firstCaller = .resolved (some "A") ∧
    (twoConcurrentGetSessionId (Session.create "h" 4443 "B" none)
        (.response 200 "\x7b\"id\":\"A\"\x7d")
        (.response 200 "\x7b\"id\":\"B\"\x7d")).secondCaller = .resolved (some "B") ∧
    (twoConcurrentGetSessionId (Session.create "h" 4443 "B" none)
        (.response 200 "\x7b\"id\":\"A\"\x7d")
        (.response 200 "\x7b\"id\":\"B\"\x7d")).finalSessionId = some "B" :=
  concurrent_getSessionId_race (Session.create "h" 4443 "B" none) rfl

/-- C10: every failing completion leaves the handle unchanged — on a rejection
`getSessionId` returns the state exactly as it was; `generateToken` never
writes the handle on any branch; and `getSessionId` can change the
`sessionId` cell only on its 200 branch. -/
theorem failed_calls_leave_state_unchanged :
    (∀ (s : Session) (env : HttpResult),
      (getSessionId s env).outcome.isFailure = true → (getSessionId s env).state = s) ∧
    (∀ (s : Session) (topts : Option TokenOptions) (env : HttpResult),
      (generateToken s topts env).state = s) ∧
    (∀ (s : Session) (code : Nat) (body : String),
      (getSessionId s (.response code body)).state.sessionId ≠ s.sessionId →
      code = 200) := by
  refine ⟨fun s env h => ?_, fun s topts env => ?_, fun s code body h => ?_⟩
  · cases env with
    | transportError e => rfl
    | response code body =>
      by_cases hc : code = 200
      · subst hc
        cases hparse : jsonParse body with
        | none =>
          simp [getSessionId, sessionCallback, hparse]
        | some fields =>
          by_cases hfast : jsTruthy s.sessionId
          · simp [getSessionId, sessionCallback, hparse, hfast,
              Outcome.isFailure] at h
          · simp [getSessionId, sessionCallback, hparse, hfast,
              Outcome.isFailure] at h
      · simp [getSessionId, sessionCallback, hc]
  · cases topts <;> rfl
  · by_cases hc : code = 200
    · exact hc
    · exfalso
      exact h (by simp [getSessionId, sessionCallback, hc])
/-- C10 witness: a fresh handle receiving a 400 fails and keeps its state, a
`generateToken` call keeps its state, and a cell-changing `getSessionId`
response is a 200 (instantiating the only-200-writes part at a 200 response
that sets the cell), with every hypothesis discharged. -/
theorem failed_calls_leave_state_unchanged_witness :
    (getSessionId (Session.create "h" 4443 "B" none)
        (.response 400 "x")).outcome.isFailure = true ∧
    (getSessionId (Session.create "h" 4443 "B" none)
        (.response 400 "x")).state = Session.create "h" 4443 "B" none ∧
    (generateToken (Session.create "h" 4443 "B" none) (some {})
        (.response 400 "x")).state = Session.create "h" 4443 "B" none ∧
    (getSessionId (Session.create "h" 4443 "B" none)
        (.response 200 "\x7b\"id\":\"A\"\x7d")).state.sessionId ≠
        (Session.create "h" 4443 "B" none).sessionId ∧
    (200 : Nat) = 200 :=
  ⟨rfl,
   failed_calls_leave_state_unchanged.1
      (Session.create "h" 4443 "B" none) (.response 400 "x") rfl,
   failed_calls_leave_state_unchanged.2.1
      (Session.create "h" 4443 "B" none) (some {}) (.response 400 "x"),
   by decide,
   failed_calls_leave_state_unchanged.2.2
      (Session.create "h" 4443 "B" none) 200 "\x7b\"id\":\"A\"\x7d" (by decide)⟩

end OpenVidu
